import Mathlib

/-!
Verification of the geometry and persistence core of the Room-Planner
repository.  The TypeScript sources under `src/utils` (gridHelpers.ts,
lineHelpers.ts, collisionDetection.ts, storage.ts) are embedded shallowly:
JavaScript numbers become real numbers, `Math.round` becomes
floor-of-plus-half (JavaScript rounds exact halves toward +∞),
`Math.sqrt` becomes `Real.sqrt`, pure functions become Lean functions and
the JSON import becomes a function over an abstract JavaScript-value type.
-/

namespace RoomPlanner

/-- A 2D point, as `Point` in `src/types/grid.ts`: two number coordinates.
The same shape is used for screen, world and grid coordinates. -/
@[ext]
structure Point where
  x : ℝ
  y : ℝ

/-- The line-type enumeration of `src/types/line.ts`: wall, door or window. -/
inductive LineType where
  | wall
  | door
  | window

/-- A line segment, as `Line` in `src/types/line.ts`.  The geometry
functions read only `start` and `end`. -/
structure Line where
  id : String
  start : Point
  «end» : Point
  type : LineType
  thickness : ℝ
  color : String

/-- A reusable furniture footprint, as `FurnitureTemplate` in
`src/types/furniture.ts`: `width` and `height` are in inches. -/
structure FurnitureTemplate where
  id : String
  name : String
  width : ℝ
  height : ℝ
  color : String
  category : Option String := none

/-- A placed piece of furniture, as `FurnitureInstance` in
`src/types/furniture.ts`; `rotation` ranges over 0, 90, 180, 270. -/
structure FurnitureInstance where
  id : String
  templateId : String
  position : Point
  rotation : ℕ

/-! ## Persistence model (`src/utils/storage.ts`)

`importLayout` parses a JSON string and merges the result into browser
storage.  `JSON.parse` is a platform builtin, so its output is modelled by
the abstract JavaScript-value type `JVal`; a parse failure is `none`. -/

/-- A parsed JavaScript/JSON value: null, boolean, number, string, array
or object (a list of key-value fields). -/
inductive JVal where
  | jnull
  | jbool (b : Bool)
  | jnum (q : ℚ)
  | jstr (s : String)
  | jarr (elems : List JVal)
  | jobj (fields : List (String × JVal))

/-- Key lookup in the field list of a JavaScript object. -/
def lookupField (fields : List (String × JVal)) (key : String) : Option JVal :=
  match fields with
  | [] => none
  | (k, v) :: rest => if k = key then some v else lookupField rest key

/-- Property read `v[key]` on a non-null JavaScript value: objects look the
key up, every other value yields `undefined` (`none`). -/
def jsMember (v : JVal) (key : String) : Option JVal :=
  match v with
  | .jobj fields => lookupField fields key
  | _ => none

/-- Property read `v[key]` as executed inside `importLayout`'s `try` block:
reading a property of `null` throws a TypeError (`error`); any other value
yields the member or `undefined`. -/
def getProp (v : JVal) (key : String) : Except Unit (Option JVal) :=
  match v with
  | .jnull => .error ()
  | _ => .ok (jsMember v key)

/-- JavaScript truthiness of a possibly-undefined value, as tested by
`if (data.lines)` in `importLayout`: `undefined`, `null`, `false`, `0` and
the empty string are falsy, everything else is truthy. -/
def truthy (v : Option JVal) : Bool :=
  match v with
  | none => false
  | some .jnull => false
  | some (.jbool b) => b
  | some (.jnum q) => !(q == 0)
  | some (.jstr s) => !(s == "")
  | some (.jarr _) => true
  | some (.jobj _) => true

/-- The four storage slots written by `saveLines`, `saveFurniture`,
`saveFurnitureTemplates` and `saveGridScale`; each save replaces the
stored JSON value of its slot. -/
structure Store where
  lines : JVal
  furniture : JVal
  templates : JVal
  gridScale : JVal

/-- The body of `importLayout`'s `try` block after a successful parse:
`data.lines`, `data.furniture` and `data.templates` each replace their slot
when truthy, `data.gridScale` replaces its slot when not `undefined`; a
thrown property access aborts with an error. -/
def importLayoutData (data : JVal) (st : Store) : Except Unit Store :=
  match getProp data "lines" with
  | .error e => .error e
  | .ok linesV =>
    let st := if truthy linesV then { st with lines := linesV.getD .jnull } else st
    match getProp data "furniture" with
    | .error e => .error e
    | .ok furnitureV =>
      let st := if truthy furnitureV then { st with furniture := furnitureV.getD .jnull } else st
      match getProp data "templates" with
      | .error e => .error e
      | .ok templatesV =>
        let st := if truthy templatesV then { st with templates := templatesV.getD .jnull } else st
        match getProp data "gridScale" with
        | .error e => .error e
        | .ok gridScaleV =>
          let st := if gridScaleV.isSome then { st with gridScale := gridScaleV.getD .jnull } else st
          .ok st

/-- `importLayout` from `src/utils/storage.ts`: the input is the result of
`JSON.parse` (`none` when parsing threw); returns the success flag and the
updated storage. -/
def importLayout (parsed : Option JVal) (st : Store) : Bool × Store :=
  match parsed with
  | none => (false, st)
  | some data =>
    match importLayoutData data st with
    | .error _ => (false, st)
    | .ok st2 => (true, st2)

/-- A storage state holding empty collections, as after a fresh session. -/
def emptyStore : Store :=
  { lines := .jarr [], furniture := .jarr [], templates := .jarr [],
    gridScale := .jnull }

/-- A parsed import payload carrying only a `lines` array. -/
def demoImport : JVal := .jobj [("lines", .jarr [.jnum 1])]

/-! ## Grid helpers (`src/utils/gridHelpers.ts`) -/

noncomputable section

/-- JavaScript `Math.round`: nearest integer, with an exact half rounded
toward +∞, i.e. `⌊x + 1/2⌋`. -/
def jsRound (x : ℝ) : ℝ := (⌊x + 1 / 2⌋ : ℤ)

/-- `snapToGrid`: rounds each coordinate to `Math.round(coord / cellSize) *
cellSize`. -/
def snapToGrid (point : Point) (cellSize : ℝ) : Point :=
  { x := jsRound (point.x / cellSize) * cellSize
    y := jsRound (point.y / cellSize) * cellSize }

/-- `distance`: Euclidean distance between two points. -/
def distance (p1 p2 : Point) : ℝ :=
  Real.sqrt ((p2.x - p1.x) ^ 2 + (p2.y - p1.y) ^ 2)

open Classical in
/-- One candidate-endpoint step of `findNearestEndpoint`'s loop: replace
the tracked nearest point when this point is strictly closer than the
running minimum. -/
def considerPoint (point : Point) (st : Option Point × ℝ) (p : Point) :
    Option Point × ℝ :=
  if distance point p < st.2 then (some p, distance point p) else st

/-- The loop of `findNearestEndpoint`: for each line in order, check its
start point and then its end point. -/
def findNearestEndpointGo (point : Point) :
    List Line → Option Point × ℝ → Option Point × ℝ
  | [], st => st
  | line :: lines, st =>
      findNearestEndpointGo point lines
        (considerPoint point (considerPoint point st line.start) line.«end»)

/-- `findNearestEndpoint`: scan all endpoints of all lines, tracking the
minimum-distance candidate strictly below the running minimum, which starts
at `snapDistance`. -/
def findNearestEndpoint (point : Point) (lines : List Line)
    (snapDistance : ℝ) : Option Point :=
  (findNearestEndpointGo point lines (none, snapDistance)).1

open Classical in
/-- `snapToGridIfClose`: snap to the full grid intersection when it is
within `snapDistance`, otherwise snap each axis independently to its
nearest grid line when that axis alone is within `snapDistance`. -/
def snapToGridIfClose (point : Point) (cellSize snapDistance : ℝ) : Point :=
  let snappedToGrid := snapToGrid point cellSize
  let dist := distance point snappedToGrid
  if dist ≤ snapDistance then snappedToGrid
  else
    let nearestGridX := jsRound (point.x / cellSize) * cellSize
    let nearestGridY := jsRound (point.y / cellSize) * cellSize
    let distToVerticalLine := |point.x - nearestGridX|
    let distToHorizontalLine := |point.y - nearestGridY|
    { x := if distToVerticalLine ≤ snapDistance then nearestGridX else point.x
      y := if distToHorizontalLine ≤ snapDistance then nearestGridY else point.y }

/-- `smartSnap`: endpoint snapping first (when enabled and a candidate is
found), then grid snapping (when enabled), else the raw point.  The source
names its fifth parameter `snapToGrid`, shadowing the function; it is the
grid-snap flag. -/
def smartSnap (point : Point) (lines : List Line) (cellSize : ℝ)
    (snapToEndpoints snapToGridFlag : Bool) (snapDistance : ℝ) : Point :=
  if snapToEndpoints then
    match findNearestEndpoint point lines snapDistance with
    | some nearestEndpoint => nearestEndpoint
    | none =>
        if snapToGridFlag then snapToGridIfClose point cellSize snapDistance
        else point
  else
    if snapToGridFlag then snapToGridIfClose point cellSize snapDistance
    else point

/-- `canvasToGrid`: floor-divide each coordinate by `cellSize`. -/
def canvasToGrid (point : Point) (cellSize : ℝ) : Point :=
  { x := (⌊point.x / cellSize⌋ : ℤ)
    y := (⌊point.y / cellSize⌋ : ℤ) }

/-- `gridToCanvas`: multiply each coordinate by `cellSize`. -/
def gridToCanvas (point : Point) (cellSize : ℝ) : Point :=
  { x := point.x * cellSize
    y := point.y * cellSize }

/-! ## Line geometry (`src/utils/lineHelpers.ts`) -/

/-- The determinant `d1x * d2y - d1y * d2x` of the two direction vectors,
computed by `doLinesIntersect`. -/
def lineDenominator (line1 line2 : Line) : ℝ :=
  (line1.«end».x - line1.start.x) * (line2.«end».y - line2.start.y) -
    (line1.«end».y - line1.start.y) * (line2.«end».x - line2.start.x)

/-- The parameter `t` of the intersection point along `line1`, as computed
by `doLinesIntersect`. -/
def paramT (line1 line2 : Line) : ℝ :=
  ((line2.start.x - line1.start.x) * (line2.«end».y - line2.start.y) -
      (line2.start.y - line1.start.y) * (line2.«end».x - line2.start.x)) /
    lineDenominator line1 line2

/-- The parameter `u` of the intersection point along `line2`, as computed
by `doLinesIntersect`. -/
def paramU (line1 line2 : Line) : ℝ :=
  ((line2.start.x - line1.start.x) * (line1.«end».y - line1.start.y) -
      (line2.start.y - line1.start.y) * (line1.«end».x - line1.start.x)) /
    lineDenominator line1 line2

open Classical in
/-- `checkCoincidentOverlap`: for (near-)parallel segments, test that both
endpoints of `line2` are collinear with `line1` (cross-product areas within
`1e-10`), guard against a zero-length `line1`, then compare the scalar
projections of all endpoints onto `line1`'s direction. -/
def checkCoincidentOverlap (line1 line2 : Line) : Prop :=
  let p1 := line1.start
  let p2 := line1.«end»
  let p3 := line2.start
  let p4 := line2.«end»
  let d1x := p2.x - p1.x
  let d1y := p2.y - p1.y
  let area1 := d1x * (p3.y - p1.y) - d1y * (p3.x - p1.x)
  let area2 := d1x * (p4.y - p1.y) - d1y * (p4.x - p1.x)
  if |area1| > 1e-10 ∨ |area2| > 1e-10 then False
  else
    let length1Sq := d1x * d1x + d1y * d1y
    if length1Sq = 0 then False
    else
      let proj1 : ℝ := 0
      let proj2 := ((p2.x - p1.x) * d1x + (p2.y - p1.y) * d1y) / Real.sqrt length1Sq
      let proj3 := ((p3.x - p1.x) * d1x + (p3.y - p1.y) * d1y) / Real.sqrt length1Sq
      let proj4 := ((p4.x - p1.x) * d1x + (p4.y - p1.y) * d1y) / Real.sqrt length1Sq
      let min1 := min proj1 proj2
      let max1 := max proj1 proj2
      let min2 := min proj3 proj4
      let max2 := max proj3 proj4
      max1 ≥ min2 ∧ max2 ≥ min1

open Classical in
/-- `doLinesIntersect`: parametric segment intersection.  Near-parallel
pairs (`|denominator| < 1e-10`) delegate to the coincident-overlap check;
otherwise the segments intersect iff both parameters lie in `[0, 1]`. -/
def doLinesIntersect (line1 line2 : Line) : Prop :=
  if |lineDenominator line1 line2| < 1e-10 then
    checkCoincidentOverlap line1 line2
  else
    paramT line1 line2 ≥ 0 ∧ paramT line1 line2 ≤ 1 ∧
      paramU line1 line2 ≥ 0 ∧ paramU line1 line2 ≤ 1

/-! ## Furniture geometry (`src/utils/collisionDetection.ts`) -/

/-- The bounds record returned by `getFurnitureBounds`. -/
structure Bounds where
  x : ℝ
  y : ℝ
  width : ℝ
  height : ℝ

/-- `getFurnitureBounds` as written in `src/utils/collisionDetection.ts`:
anchored at the instance position, template dimensions swapped for 90/270
degree rotations.  It takes no scale parameter and performs no division. -/
def getFurnitureBounds (furniture : FurnitureInstance)
    (template : FurnitureTemplate) : Bounds :=
  let isRotated := furniture.rotation == 90 || furniture.rotation == 270
  { x := furniture.position.x
    y := furniture.position.y
    width := if isRotated then template.height else template.width
    height := if isRotated then template.width else template.height }

/-- `checkFurnitureCollision`: axis-aligned bounding-box overlap of the two
furniture bounds, with touching edges (`≤`) not counting as collision. -/
def checkFurnitureCollision (f1 : FurnitureInstance) (t1 : FurnitureTemplate)
    (f2 : FurnitureInstance) (t2 : FurnitureTemplate) : Prop :=
  let b1 := getFurnitureBounds f1 t1
  let b2 := getFurnitureBounds f2 t2
  ¬(b1.x + b1.width ≤ b2.x ∨ b2.x + b2.width ≤ b1.x ∨
      b1.y + b1.height ≤ b2.y ∨ b2.y + b2.height ≤ b1.y)

/-! ## Specification-side definitions

These restate parts of the specification in its own words, to be compared
with the source embeddings above. -/

/-- Collinear-overlap criterion as the specification words it: both of
`line2`'s endpoints collinear with `line1` by the cross-product area test,
a nonzero `line1` direction, and overlapping intervals of the scalar
projections of every endpoint onto the shared direction. -/
def specCollinearOverlap (line1 line2 : Line) : Prop :=
  let p1 := line1.start
  let d1x := line1.«end».x - p1.x
  let d1y := line1.«end».y - p1.y
  let len := Real.sqrt (d1x * d1x + d1y * d1y)
  |d1x * (line2.start.y - p1.y) - d1y * (line2.start.x - p1.x)| ≤ 1e-10 ∧
  |d1x * (line2.«end».y - p1.y) - d1y * (line2.«end».x - p1.x)| ≤ 1e-10 ∧
  d1x * d1x + d1y * d1y ≠ 0 ∧
  max (((p1.x - p1.x) * d1x + (p1.y - p1.y) * d1y) / len)
      (((line1.«end».x - p1.x) * d1x + (line1.«end».y - p1.y) * d1y) / len) ≥
    min (((line2.start.x - p1.x) * d1x + (line2.start.y - p1.y) * d1y) / len)
      (((line2.«end».x - p1.x) * d1x + (line2.«end».y - p1.y) * d1y) / len) ∧
  max (((line2.start.x - p1.x) * d1x + (line2.start.y - p1.y) * d1y) / len)
      (((line2.«end».x - p1.x) * d1x + (line2.«end».y - p1.y) * d1y) / len) ≥
    min (((p1.x - p1.x) * d1x + (p1.y - p1.y) * d1y) / len)
      (((line1.«end».x - p1.x) * d1x + (line1.«end».y - p1.y) * d1y) / len)

end

/-! ## Proof-side helpers and concrete scenario data -/

/-- All `start`/`end` points of a line list, in the visit order of
`findNearestEndpoint`: list order, each line's start before its end. -/
def lineEndpoints : List Line → List Point
  | [] => []
  | line :: lines => line.start :: line.«end» :: lineEndpoints lines

noncomputable section

open Classical in
/-- The candidate scan of `findNearestEndpoint`, one endpoint at a time. -/
def scanPoints (point : Point) : List Point → Option Point × ℝ → Option Point × ℝ
  | [], st => st
  | e :: es, st => scanPoints point es (considerPoint point st e)

end

noncomputable section

/-- A line with the given endpoints and default wall styling. -/
def mkLine (s e : Point) : Line :=
  { id := "", start := s, «end» := e, type := .wall, thickness := 4, color := "#000000" }

/-- Scenario D/E template: a 36-inch by 24-inch sofa. -/
def sofaTemplate : FurnitureTemplate :=
  { id := "template-1", name := "Sofa", width := 36, height := 24, color := "#3498db" }

/-- Scenario D/E instance of the sofa at grid position (5, 5), unrotated. -/
def sofaInstance : FurnitureInstance :=
  { id := "furniture-1", templateId := "template-1", position := ⟨5, 5⟩, rotation := 0 }

/-- A 1-inch by 1-inch template used for concrete collision checks. -/
def unitTemplate : FurnitureTemplate :=
  { id := "template-u", name := "Unit", width := 1, height := 1, color := "#000000" }

/-- A unit-template instance at the origin. -/
def unitAtOrigin : FurnitureInstance :=
  { id := "furniture-u1", templateId := "template-u", position := ⟨0, 0⟩, rotation := 0 }

/-- A unit-template instance overlapping `unitAtOrigin` by half a cell. -/
def unitAtHalf : FurnitureInstance :=
  { id := "furniture-u2", templateId := "template-u", position := ⟨1/2, 1/2⟩, rotation := 0 }

/-- The horizontal segment from (0,0) to (10,0), used by Scenario C. -/
def horizontalTen : Line := mkLine ⟨0, 0⟩ ⟨10, 0⟩

/-- A zero-length segment sitting at (5,0), on `horizontalTen`. -/
def degenerateAtFive : Line := mkLine ⟨5, 0⟩ ⟨5, 0⟩

/-- Scenario C first perpendicular segment, (0,5) to (10,5); also the
parallel non-overlapping partner of `horizontalTen`. -/
def horizontalAtFive : Line := mkLine ⟨0, 5⟩ ⟨10, 5⟩

/-- Scenario C second perpendicular segment, (5,0) to (5,10). -/
def verticalAtFive : Line := mkLine ⟨5, 0⟩ ⟨5, 10⟩

/-- Scenario C collinear overlapping segment, (5,0) to (15,0). -/
def collinearShifted : Line := mkLine ⟨5, 0⟩ ⟨15, 0⟩

end

/-! ## General lemmas -/

theorem jsRound_eq {x : ℝ} {k : ℤ} (h1 : (k : ℝ) ≤ x + 1 / 2)
    (h2 : x + 1 / 2 < (k : ℝ) + 1) : jsRound x = (k : ℝ) := by
  unfold jsRound
  norm_cast
  exact Int.floor_eq_iff.mpr ⟨h1, by exact_mod_cast h2⟩

theorem sqrt_eval {a b : ℝ} (hb : 0 ≤ b) (h : b ^ 2 = a) : Real.sqrt a = b := by
  rw [← h, Real.sqrt_sq hb]

theorem round_axis (a c : ℝ) (hc : 0 < c) :
    ∃ k : ℤ, jsRound (a / c) * c = (k : ℝ) * c ∧
      (k : ℝ) * c - c / 2 ≤ a ∧ a < (k : ℝ) * c + c / 2 := by
  refine ⟨⌊a / c + 1 / 2⌋, rfl, ?_, ?_⟩
  · have h := Int.floor_le (a / c + 1 / 2)
    have h2 : ((⌊a / c + 1 / 2⌋ : ℝ) - 1 / 2) ≤ a / c := by linarith
    have h3 := (le_div_iff₀ hc).mp h2
    have h4 : ((⌊a / c + 1 / 2⌋ : ℝ) - 1 / 2) * c =
        (⌊a / c + 1 / 2⌋ : ℝ) * c - c / 2 := by ring
    linarith
  · have h := Int.lt_floor_add_one (a / c + 1 / 2)
    have h2 : a / c < (⌊a / c + 1 / 2⌋ : ℝ) + 1 / 2 := by linarith
    have h3 := (div_lt_iff₀ hc).mp h2
    have h4 : ((⌊a / c + 1 / 2⌋ : ℝ) + 1 / 2) * c =
        (⌊a / c + 1 / 2⌋ : ℝ) * c + c / 2 := by ring
    linarith

theorem floor_mul_axis (a c : ℝ) (hc : 0 < c) :
    ((⌊a / c⌋ : ℝ) * c = a) ↔ ∃ m : ℤ, a = (m : ℝ) * c := by
  constructor
  · intro h
    exact ⟨⌊a / c⌋, h.symm⟩
  · rintro ⟨m, rfl⟩
    rw [mul_div_cancel_right₀ _ (ne_of_gt hc), Int.floor_intCast]

/-! ## Claim theorems -/

/-- C4 counterexample: at `(-10, -10)` with cell size 20 each coordinate
divided by the cell size is the exact half `-0.5`; `Math.round` takes it
toward +∞, so the code returns `(0, 0)`, not the away-from-zero multiple
`(-20, -20)` the claim demands. -/
theorem snapToGrid_half_counterexample :
    snapToGrid ⟨-10, -10⟩ 20 = ⟨0, 0⟩ ∧ (⟨0, 0⟩ : Point) ≠ (⟨-20, -20⟩ : Point) := by
  constructor
  · have h1 : jsRound ((-10 : ℝ) / 20) = ((0 : ℤ) : ℝ) :=
      jsRound_eq (by norm_num) (by norm_num)
    ext <;> (dsimp [snapToGrid]; rw [h1]; norm_num)
  · intro h
    have hx := congrArg Point.x h
    norm_num at hx

/-- C4 (amended): for positive `cellSize`, `snapToGrid` returns on each
axis independently the multiple `k * cellSize` whose half-open bucket
`[k*cellSize - cellSize/2, k*cellSize + cellSize/2)` contains the
coordinate — the nearest multiple, with exact half-way coordinates rounded
toward +∞ (not away from zero); in particular
`snapToGrid((25,25), 20) = (20,20)` and `snapToGrid((35,35), 20) = (40,40)`. -/
theorem snapToGrid_spec :
    (∀ (p : Point) (cellSize : ℝ), 0 < cellSize →
      (∃ k : ℤ, (snapToGrid p cellSize).x = (k : ℝ) * cellSize ∧
        (k : ℝ) * cellSize - cellSize / 2 ≤ p.x ∧
        p.x < (k : ℝ) * cellSize + cellSize / 2) ∧
      (∃ k : ℤ, (snapToGrid p cellSize).y = (k : ℝ) * cellSize ∧
        (k : ℝ) * cellSize - cellSize / 2 ≤ p.y ∧
        p.y < (k : ℝ) * cellSize + cellSize / 2)) ∧
    snapToGrid ⟨25, 25⟩ 20 = ⟨20, 20⟩ ∧
    snapToGrid ⟨35, 35⟩ 20 = ⟨40, 40⟩ := by
  refine ⟨fun p c hc => ⟨round_axis p.x c hc, round_axis p.y c hc⟩, ?_, ?_⟩
  · have h1 : jsRound ((25 : ℝ) / 20) = ((1 : ℤ) : ℝ) :=
      jsRound_eq (by norm_num) (by norm_num)
    ext <;> (dsimp [snapToGrid]; rw [h1]; norm_num)
  · have h1 : jsRound ((35 : ℝ) / 20) = ((2 : ℤ) : ℝ) :=
      jsRound_eq (by norm_num) (by norm_num)
    ext <;> (dsimp [snapToGrid]; rw [h1]; norm_num)

/-- C4 witness: the characterization applied at `(25, 25)` with cell size
20 produces a concrete bucket certificate. -/
theorem snapToGrid_spec_witness :
    ∃ k : ℤ, (snapToGrid ⟨25, 25⟩ 20).x = (k : ℝ) * 20 ∧
      (k : ℝ) * 20 - 20 / 2 ≤ (25 : ℝ) ∧ (25 : ℝ) < (k : ℝ) * 20 + 20 / 2 :=
  (snapToGrid_spec.1 ⟨25, 25⟩ 20 (by norm_num)).1

/-- C9: the round trip `gridToCanvas(canvasToGrid(p, cs), cs)` returns `p`
exactly when both coordinates of `p` are integer multiples of `cs`; any
non-aligned coordinate breaks the identity. -/
theorem gridCanvas_roundTrip :
    ∀ (p : Point) (cs : ℝ), 0 < cs →
      (gridToCanvas (canvasToGrid p cs) cs = p ↔
        (∃ m : ℤ, p.x = (m : ℝ) * cs) ∧ (∃ n : ℤ, p.y = (n : ℝ) * cs)) := by
  intro p cs hc
  rw [Point.ext_iff]
  dsimp [gridToCanvas, canvasToGrid]
  rw [floor_mul_axis p.x cs hc, floor_mul_axis p.y cs hc]

/-- C9 witness: the round trip is the identity on the grid-aligned point
`(4, 6)` with cell size 2. -/
theorem gridCanvas_roundTrip_witness :
    gridToCanvas (canvasToGrid ⟨4, 6⟩ 2) 2 = ⟨4, 6⟩ :=
  (gridCanvas_roundTrip ⟨4, 6⟩ 2 (by norm_num)).mpr
    ⟨⟨2, by show (4 : ℝ) = ((2 : ℤ) : ℝ) * 2; norm_num⟩,
     ⟨3, by show (6 : ℝ) = ((3 : ℤ) : ℝ) * 2; norm_num⟩⟩

/-- C10: whenever both coordinates of `p` are individually within
`snapDistance` of their nearest grid lines, `snapToGridIfClose` returns the
full grid intersection `snapToGrid p cellSize` — even when the Euclidean
distance to that intersection exceeds `snapDistance`, as at `p = (4,4)`,
`cellSize = 20`, `snapDistance = 5`, where the intersection `(0,0)` is at
distance `√32 ≈ 5.66 > 5` yet is returned; the fallback is not limited to
single-axis snaps. -/
theorem snapToGridIfClose_spec :
    (∀ (p : Point) (cellSize snapDistance : ℝ),
      |p.x - jsRound (p.x / cellSize) * cellSize| ≤ snapDistance →
      |p.y - jsRound (p.y / cellSize) * cellSize| ≤ snapDistance →
      snapToGridIfClose p cellSize snapDistance = snapToGrid p cellSize) ∧
    5 < distance ⟨4, 4⟩ (snapToGrid ⟨4, 4⟩ 20) ∧
    snapToGrid ⟨4, 4⟩ 20 = ⟨0, 0⟩ ∧
    snapToGridIfClose ⟨4, 4⟩ 20 5 = ⟨0, 0⟩ := by
  have h0 : jsRound ((4 : ℝ) / 20) = ((0 : ℤ) : ℝ) :=
    jsRound_eq (by norm_num) (by norm_num)
  have hsg : snapToGrid ⟨4, 4⟩ 20 = (⟨0, 0⟩ : Point) := by
    ext <;> (dsimp [snapToGrid]; rw [h0]; norm_num)
  have hdist : distance ⟨4, 4⟩ (⟨0, 0⟩ : Point) = Real.sqrt 32 := by
    dsimp [distance]; norm_num
  have h32 : (5 : ℝ) < Real.sqrt 32 := (Real.lt_sqrt (by norm_num)).mpr (by norm_num)
  refine ⟨?_, ?_, hsg, ?_⟩
  · intro p c d hx hy
    simp only [snapToGridIfClose]
    by_cases hd : distance p (snapToGrid p c) ≤ d
    · rw [if_pos hd]
    · rw [if_neg hd, if_pos hx, if_pos hy]
      rfl
  · rw [hsg, hdist]
    exact h32
  · simp only [snapToGridIfClose]
    rw [hsg, hdist, if_neg (not_le.mpr h32)]
    have hc : |(4 : ℝ) - ((0 : ℤ) : ℝ) * 20| ≤ 5 := by norm_num
    ext
    · dsimp only
      rw [h0, if_pos hc]
      norm_num
    · dsimp only
      rw [h0, if_pos hc]
      norm_num

/-- C10 witness: at `(4, 4)` with cell size 20 and snap distance 5 both
per-axis conditions hold, and the result is the full grid intersection. -/
theorem snapToGridIfClose_spec_witness :
    snapToGridIfClose ⟨4, 4⟩ 20 5 = snapToGrid ⟨4, 4⟩ 20 :=
  snapToGridIfClose_spec.1 ⟨4, 4⟩ 20 5
    (by
      have h0 : jsRound ((4 : ℝ) / 20) = ((0 : ℤ) : ℝ) :=
        jsRound_eq (by norm_num) (by norm_num)
      dsimp
      rw [h0]
      norm_num)
    (by
      have h0 : jsRound ((4 : ℝ) / 20) = ((0 : ℤ) : ℝ) :=
        jsRound_eq (by norm_num) (by norm_num)
      dsimp
      rw [h0]
      norm_num)

/-- C1: the claim (and the repository's own test suite) requires
`getFurnitureBounds` to divide the template's inch dimensions by
`inchesPerCell`, but the implementation takes no scale parameter and
returns the raw inches: for the 36×24 template at scale 12 and rotation 0
the code yields width 36 and height 24 where the claim requires 3 and 2,
and at rotation 90 it yields width 24 where the claim requires 2. -/
theorem getFurnitureBounds_code_bug :
    (getFurnitureBounds sofaInstance sofaTemplate).width = 36 ∧
    (getFurnitureBounds sofaInstance sofaTemplate).height = 24 ∧
    (getFurnitureBounds { sofaInstance with rotation := 90 } sofaTemplate).width = 24 ∧
    (36 : ℝ) ≠ 36 / 12 := by
  refine ⟨?_, ?_, ?_, by norm_num⟩ <;>
    norm_num [getFurnitureBounds, sofaInstance, sofaTemplate]

/-- C8: `checkFurnitureCollision` holds exactly when the two bounds
rectangles overlap with strictly positive length on both axes (given
positive template dimensions); exact edge-adjacency is never a collision,
and the test is unchanged when the two (instance, template) pairs swap. -/
theorem checkFurnitureCollision_spec :
    (∀ f1 t1 f2 t2, 0 < t1.width → 0 < t1.height → 0 < t2.width → 0 < t2.height →
      (checkFurnitureCollision f1 t1 f2 t2 ↔
        max (getFurnitureBounds f1 t1).x (getFurnitureBounds f2 t2).x <
          min ((getFurnitureBounds f1 t1).x + (getFurnitureBounds f1 t1).width)
            ((getFurnitureBounds f2 t2).x + (getFurnitureBounds f2 t2).width) ∧
        max (getFurnitureBounds f1 t1).y (getFurnitureBounds f2 t2).y <
          min ((getFurnitureBounds f1 t1).y + (getFurnitureBounds f1 t1).height)
            ((getFurnitureBounds f2 t2).y + (getFurnitureBounds f2 t2).height))) ∧
    (∀ f1 t1 f2 t2,
      checkFurnitureCollision f1 t1 f2 t2 ↔ checkFurnitureCollision f2 t2 f1 t1) ∧
    (∀ f1 t1 f2 t2,
      (getFurnitureBounds f1 t1).x + (getFurnitureBounds f1 t1).width =
        (getFurnitureBounds f2 t2).x → ¬checkFurnitureCollision f1 t1 f2 t2) := by
  have hwpos : ∀ (f : FurnitureInstance) (t : FurnitureTemplate),
      0 < t.width → 0 < t.height → 0 < (getFurnitureBounds f t).width := by
    intro f t hw hh
    dsimp [getFurnitureBounds]
    split <;> assumption
  have hhpos : ∀ (f : FurnitureInstance) (t : FurnitureTemplate),
      0 < t.width → 0 < t.height → 0 < (getFurnitureBounds f t).height := by
    intro f t hw hh
    dsimp [getFurnitureBounds]
    split <;> assumption
  refine ⟨?_, ?_, ?_⟩
  · intro f1 t1 f2 t2 hw1 hh1 hw2 hh2
    have p1 := hwpos f1 t1 hw1 hh1
    have p2 := hhpos f1 t1 hw1 hh1
    have p3 := hwpos f2 t2 hw2 hh2
    have p4 := hhpos f2 t2 hw2 hh2
    simp only [checkFurnitureCollision]
    push_neg
    constructor
    · rintro ⟨hA, hB, hC, hD⟩
      exact ⟨max_lt (lt_min (by linarith) (by linarith)) (lt_min (by linarith) (by linarith)),
        max_lt (lt_min (by linarith) (by linarith)) (lt_min (by linarith) (by linarith))⟩
    · rintro ⟨hx, hy⟩
      simp only [max_lt_iff, lt_min_iff] at hx hy
      exact ⟨by linarith [hx.2.1], by linarith [hx.1.2], by linarith [hy.2.1],
        by linarith [hy.1.2]⟩
  · intro f1 t1 f2 t2
    simp only [checkFurnitureCollision]
    constructor <;> (intro h hc; exact h (by tauto))
  · intro f1 t1 f2 t2 heq
    simp only [checkFurnitureCollision]
    intro hc
    exact hc (Or.inl (le_of_eq heq))

/-- C8 witness: the unit squares at (0,0) and (1/2,1/2) have positively
overlapping bounds, so the overlap characterization yields a collision. -/
theorem checkFurnitureCollision_spec_witness :
    checkFurnitureCollision unitAtOrigin unitTemplate unitAtHalf unitTemplate :=
  (checkFurnitureCollision_spec.1 unitAtOrigin unitTemplate unitAtHalf unitTemplate
      (by norm_num [unitTemplate]) (by norm_num [unitTemplate])
      (by norm_num [unitTemplate]) (by norm_num [unitTemplate])).mpr
    (by
      simp only [max_lt_iff, lt_min_iff]
      norm_num [getFurnitureBounds, unitAtOrigin, unitAtHalf, unitTemplate])

/-- C6: `smartSnap` priority order — with endpoint snapping enabled and a
candidate found, that endpoint is returned (never the grid point);
otherwise the grid-snap flag decides between `snapToGridIfClose` and the
unchanged input point. -/
theorem smartSnap_spec :
    ∀ (point : Point) (lines : List Line) (cellSize : ℝ)
      (snapToEndpoints snapToGridFlag : Bool) (snapDistance : ℝ),
      (∀ e, snapToEndpoints = true →
        findNearestEndpoint point lines snapDistance = some e →
        smartSnap point lines cellSize snapToEndpoints snapToGridFlag snapDistance = e) ∧
      ((snapToEndpoints = true → findNearestEndpoint point lines snapDistance = none) →
        snapToGridFlag = true →
        smartSnap point lines cellSize snapToEndpoints snapToGridFlag snapDistance =
          snapToGridIfClose point cellSize snapDistance) ∧
      ((snapToEndpoints = true → findNearestEndpoint point lines snapDistance = none) →
        snapToGridFlag = false →
        smartSnap point lines cellSize snapToEndpoints snapToGridFlag snapDistance =
          point) := by
  intro p lines c se sg d
  refine ⟨?_, ?_, ?_⟩
  · rintro e rfl hsome
    simp [smartSnap, hsome]
  · rintro hnone rfl
    cases se with
    | false => simp [smartSnap]
    | true => simp [smartSnap, hnone rfl]
  · rintro hnone rfl
    cases se with
    | false => simp [smartSnap]
    | true => simp [smartSnap, hnone rfl]

theorem findNearestEndpointGo_eq_scan (point : Point) :
    ∀ (lines : List Line) (st : Option Point × ℝ),
      findNearestEndpointGo point lines st =
        scanPoints point (lineEndpoints lines) st := by
  intro lines
  induction lines with
  | nil => intro st; rfl
  | cons line lines ih =>
      intro st
      simp only [findNearestEndpointGo, lineEndpoints, scanPoints]
      exact ih _

theorem scanPoints_fst_none (point : Point) :
    ∀ (es : List Point) (st : Option Point × ℝ),
      ((scanPoints point es st).1 = none ↔
        st.1 = none ∧ ∀ e ∈ es, st.2 ≤ distance point e) := by
  intro es
  induction es with
  | nil =>
      intro st
      simp [scanPoints]
  | cons e0 es ih =>
      intro st
      simp only [scanPoints]
      rw [ih]
      by_cases h : distance point e0 < st.2
      · simp only [considerPoint, if_pos h]
        constructor
        · rintro ⟨h1, -⟩
          exact absurd h1 (Option.some_ne_none _)
        · rintro ⟨-, h2⟩
          exact absurd (h2 e0 (List.mem_cons_self e0 es)) (not_le.mpr h)
      · simp only [considerPoint, if_neg h]
        push_neg at h
        constructor
        · rintro ⟨h1, h2⟩
          refine ⟨h1, fun e he => ?_⟩
          rcases List.mem_cons.mp he with rfl | he2
          · exact h
          · exact h2 e he2
        · rintro ⟨h1, h2⟩
          exact ⟨h1, fun e he => h2 e (List.mem_cons_of_mem _ he)⟩

theorem scanPoints_fst_some (point : Point) :
    ∀ (es : List Point) (st : Option Point × ℝ) (e : Point),
      (scanPoints point es st).1 = some e →
        (st.1 = some e ∧ ∀ q ∈ es, st.2 ≤ distance point q) ∨
        (distance point e < st.2 ∧ ∃ i, ∃ h : i < es.length,
          es.get ⟨i, h⟩ = e ∧
          (∀ q ∈ es, distance point e ≤ distance point q) ∧
          (∀ q ∈ es.take i, distance point e < distance point q)) := by
  intro es
  induction es with
  | nil =>
      intro st e h
      exact Or.inl ⟨h, by simp⟩
  | cons e0 es ih =>
      intro st e hsome
      simp only [scanPoints] at hsome
      by_cases h : distance point e0 < st.2
      · simp only [considerPoint, if_pos h] at hsome
        rcases ih _ e hsome with ⟨h1, h2⟩ | ⟨hlt, i, hi, hget, hall, hfirst⟩
        · obtain rfl : e0 = e := Option.some.inj h1
          refine Or.inr ⟨h, 0, Nat.succ_pos _, rfl, ?_, ?_⟩
          · intro q hq
            rcases List.mem_cons.mp hq with rfl | hq2
            · exact le_refl _
            · exact h2 q hq2
          · intro q hq
            simp at hq
        · refine Or.inr ⟨lt_trans hlt h, i + 1, Nat.succ_lt_succ hi, hget, ?_, ?_⟩
          · intro q hq
            rcases List.mem_cons.mp hq with rfl | hq2
            · exact le_of_lt hlt
            · exact hall q hq2
          · intro q hq
            rcases List.mem_cons.mp (by simpa using hq) with rfl | hq2
            · exact hlt
            · exact hfirst q hq2
      · simp only [considerPoint, if_neg h] at hsome
        push_neg at h
        rcases ih _ e hsome with ⟨h1, h2⟩ | ⟨hlt, i, hi, hget, hall, hfirst⟩
        · refine Or.inl ⟨h1, fun q hq => ?_⟩
          rcases List.mem_cons.mp hq with rfl | hq2
          · exact h
          · exact h2 q hq2
        · refine Or.inr ⟨hlt, i + 1, Nat.succ_lt_succ hi, hget, ?_, ?_⟩
          · intro q hq
            rcases List.mem_cons.mp hq with rfl | hq2
            · exact le_of_lt (lt_of_lt_of_le hlt h)
            · exact hall q hq2
          · intro q hq
            rcases List.mem_cons.mp (by simpa using hq) with rfl | hq2
            · exact lt_of_lt_of_le hlt h
            · exact hfirst q hq2

/-- C7: `findNearestEndpoint` returns `none` exactly when no endpoint lies
strictly closer than `snapDistance` (distance exactly `snapDistance` does
not qualify); otherwise it returns the endpoint at the first position — in
the order lines appear, each line's start before its end — achieving the
minimum distance, which is strictly below `snapDistance` and no larger than
any other endpoint's distance, all endpoints at earlier positions being
strictly farther. -/
theorem findNearestEndpoint_spec :
    ∀ (point : Point) (lines : List Line) (snapDistance : ℝ),
      (findNearestEndpoint point lines snapDistance = none ↔
        ∀ q ∈ lineEndpoints lines, snapDistance ≤ distance point q) ∧
      (∀ e, findNearestEndpoint point lines snapDistance = some e →
        distance point e < snapDistance ∧
        ∃ i, ∃ h : i < (lineEndpoints lines).length,
          (lineEndpoints lines).get ⟨i, h⟩ = e ∧
          (∀ q ∈ lineEndpoints lines, distance point e ≤ distance point q) ∧
          (∀ q ∈ (lineEndpoints lines).take i,
            distance point e < distance point q)) := by
  intro p lines d
  have hval : findNearestEndpoint p lines d =
      (scanPoints p (lineEndpoints lines) (none, d)).1 := by
    unfold findNearestEndpoint
    rw [findNearestEndpointGo_eq_scan]
  constructor
  · rw [hval, scanPoints_fst_none]
    simp
  · intro e he
    rw [hval] at he
    rcases scanPoints_fst_some p (lineEndpoints lines) (none, d) e he with
      ⟨h1, -⟩ | ⟨hlt, hrest⟩
    · exact Option.noConfusion h1
    · exact ⟨hlt, hrest⟩

theorem findNearestEndpoint_demo :
    findNearestEndpoint ⟨1, 0⟩ [horizontalTen] 5 = some ⟨0, 0⟩ := by
  have h1 : distance ⟨1, 0⟩ (⟨0, 0⟩ : Point) = 1 := by
    dsimp [distance]
    rw [show ((0 : ℝ) - 1) ^ 2 + ((0 : ℝ) - 0) ^ 2 = 1 by norm_num]
    exact Real.sqrt_one
  have h2 : distance ⟨1, 0⟩ (⟨10, 0⟩ : Point) = 9 := by
    dsimp [distance]
    exact sqrt_eval (by norm_num) (by norm_num)
  simp only [findNearestEndpoint, findNearestEndpointGo, horizontalTen, mkLine,
    considerPoint, h1, h2]
  norm_num

/-- C7 witness: in the single-line list `[(0,0)-(10,0)]` the point `(1,0)`
finds the endpoint `(0,0)` strictly within snap distance 5. -/
theorem findNearestEndpoint_spec_witness :
    distance ⟨1, 0⟩ (⟨0, 0⟩ : Point) < 5 :=
  ((findNearestEndpoint_spec ⟨1, 0⟩ [horizontalTen] 5).2 ⟨0, 0⟩
    findNearestEndpoint_demo).1

/-- C6 witness: endpoint snap wins — with both snapping modes enabled, an
endpoint within range, and grid snap eligible, `smartSnap` returns the
endpoint `(0,0)`. -/
theorem smartSnap_spec_witness :
    smartSnap ⟨1, 0⟩ [horizontalTen] 20 true true 5 = ⟨0, 0⟩ :=
  (smartSnap_spec ⟨1, 0⟩ [horizontalTen] 20 true true 5).1 ⟨0, 0⟩ rfl
    findNearestEndpoint_demo

theorem lineDenominator_swap (l1 l2 : Line) :
    lineDenominator l2 l1 = -lineDenominator l1 l2 := by
  unfold lineDenominator
  ring

theorem perp_denominator_large :
    1e-10 ≤ |lineDenominator horizontalAtFive verticalAtFive| := by
  rw [show lineDenominator horizontalAtFive verticalAtFive = 100 from by
    norm_num [lineDenominator, horizontalAtFive, verticalAtFive, mkLine]]
  rw [abs_of_nonneg (by norm_num : (0 : ℝ) ≤ 100)]
  norm_num

/-- C3 counterexample: `doLinesIntersect` is not symmetric on degenerate
segments — the zero-length segment at (5,0) against the segment
(0,0)-(10,0) gives `false` (the zero-length guard fires when the point
segment is the first argument), but with the arguments swapped the overlap
test projects the point onto the segment and gives `true`. -/
theorem doLinesIntersect_symm_counterexample :
    ¬(doLinesIntersect degenerateAtFive horizontalTen ↔
      doLinesIntersect horizontalTen degenerateAtFive) := by
  have hA : ¬doLinesIntersect degenerateAtFive horizontalTen := by
    unfold doLinesIntersect
    rw [if_pos (by
      norm_num [lineDenominator, degenerateAtFive, horizontalTen, mkLine, abs_zero])]
    simp only [checkCoincidentOverlap, degenerateAtFive, horizontalTen, mkLine]
    rw [if_neg (by norm_num [abs_zero]), if_pos (by norm_num)]
    exact not_false
  have hB : doLinesIntersect horizontalTen degenerateAtFive := by
    unfold doLinesIntersect
    rw [if_pos (by
      norm_num [lineDenominator, horizontalTen, degenerateAtFive, mkLine, abs_zero])]
    simp only [checkCoincidentOverlap, horizontalTen, degenerateAtFive, mkLine]
    rw [if_neg (by norm_num [abs_zero]), if_neg (by norm_num)]
    rw [show Real.sqrt (((10 : ℝ) - 0) * ((10 : ℝ) - 0) + ((0 : ℝ) - 0) * ((0 : ℝ) - 0)) = 10 from by
      rw [show (((10 : ℝ) - 0) * ((10 : ℝ) - 0) + ((0 : ℝ) - 0) * ((0 : ℝ) - 0)) = 100 by norm_num]
      exact sqrt_eval (by norm_num) (by norm_num)]
    constructor
    · exact le_trans (min_le_left _ _) (le_trans (by norm_num) (le_max_right _ _))
    · exact le_trans (min_le_left _ _) (le_trans (by norm_num) (le_max_left _ _))
  intro h
  exact hA (h.mpr hB)

/-- C3 (amended): `doLinesIntersect(l1,l2) = doLinesIntersect(l2,l1)` for
every pair whose direction cross product is at least `1e-10` in absolute
value (the general-position branch); in the near-parallel branch the
coincidence test is relative to the first segment's direction and symmetry
can fail, e.g. on a zero-length first segment. -/
theorem doLinesIntersect_symm_general :
    ∀ l1 l2 : Line, 1e-10 ≤ |lineDenominator l1 l2| →
      (doLinesIntersect l1 l2 ↔ doLinesIntersect l2 l1) := by
  intro l1 l2 h
  have hne : lineDenominator l1 l2 ≠ 0 := by
    intro h0
    rw [h0, abs_zero] at h
    norm_num at h
  have h21 : |lineDenominator l2 l1| = |lineDenominator l1 l2| := by
    rw [lineDenominator_swap, abs_neg]
  have hne2 : lineDenominator l2 l1 ≠ 0 := by
    rw [lineDenominator_swap]
    exact neg_ne_zero.mpr hne
  have ht : paramT l2 l1 = paramU l1 l2 := by
    unfold paramT paramU
    rw [div_eq_div_iff hne2 hne, lineDenominator_swap]
    unfold lineDenominator
    ring
  have hu : paramU l2 l1 = paramT l1 l2 := by
    unfold paramT paramU
    rw [div_eq_div_iff hne2 hne, lineDenominator_swap]
    unfold lineDenominator
    ring
  unfold doLinesIntersect
  rw [if_neg (not_lt.mpr h), if_neg (not_lt.mpr (le_of_le_of_eq h h21.symm))]
  rw [ht, hu]
  tauto

/-- C3 witness: the perpendicular Scenario C pair is in general position
and the symmetry equivalence applies to it. -/
theorem doLinesIntersect_symm_general_witness :
    doLinesIntersect horizontalAtFive verticalAtFive ↔
      doLinesIntersect verticalAtFive horizontalAtFive :=
  doLinesIntersect_symm_general horizontalAtFive verticalAtFive
    perp_denominator_large

theorem checkCoincidentOverlap_iff_spec (l1 l2 : Line) :
    checkCoincidentOverlap l1 l2 ↔ specCollinearOverlap l1 l2 := by
  have hz : ∀ a b c d e : ℝ, ((a - a) * b + (c - c) * d) / e = 0 := by
    intro a b c d e
    rw [show (a - a) * b + (c - c) * d = 0 by ring, zero_div]
  simp only [checkCoincidentOverlap, specCollinearOverlap, hz]
  split_ifs with h1 h2
  · rw [false_iff]
    rintro ⟨hA1, hA2, -⟩
    rcases h1 with h | h
    · exact (not_le.mpr h) hA1
    · exact (not_le.mpr h) hA2
  · rw [false_iff]
    rintro ⟨-, -, hN, -⟩
    exact hN h2
  · push_neg at h1
    constructor
    · intro hov
      exact ⟨h1.1, h1.2, h2, hov.1, hov.2⟩
    · rintro ⟨-, -, -, o1, o2⟩
      exact ⟨o1, o2⟩

/-- C5: in general position (direction cross product at least `1e-10` in
absolute value) the segments intersect iff both parameters `t`, `u` lie in
`[0,1]`, endpoint touching included; in the near-parallel branch the result
is exactly the specification's collinear-overlap criterion (collinearity by
the area test, nonzero shared direction, overlapping scalar-projection
intervals); Scenario C: the perpendicular pair intersects, the parallel
offset pair does not, the collinear overlapping pair does. -/
theorem doLinesIntersect_spec :
    (∀ l1 l2 : Line, 1e-10 ≤ |lineDenominator l1 l2| →
      (doLinesIntersect l1 l2 ↔
        0 ≤ paramT l1 l2 ∧ paramT l1 l2 ≤ 1 ∧
          0 ≤ paramU l1 l2 ∧ paramU l1 l2 ≤ 1)) ∧
    (∀ l1 l2 : Line, |lineDenominator l1 l2| < 1e-10 →
      (doLinesIntersect l1 l2 ↔ specCollinearOverlap l1 l2)) ∧
    doLinesIntersect horizontalAtFive verticalAtFive ∧
    ¬doLinesIntersect horizontalTen horizontalAtFive ∧
    doLinesIntersect horizontalTen collinearShifted := by
  refine ⟨?_, ?_, ?_, ?_, ?_⟩
  · intro l1 l2 h
    unfold doLinesIntersect
    rw [if_neg (not_lt.mpr h)]
  · intro l1 l2 h
    unfold doLinesIntersect
    rw [if_pos h]
    exact checkCoincidentOverlap_iff_spec l1 l2
  · unfold doLinesIntersect
    rw [if_neg (not_lt.mpr perp_denominator_large)]
    refine ⟨?_, ?_, ?_, ?_⟩ <;>
      norm_num [paramT, paramU, lineDenominator, horizontalAtFive, verticalAtFive,
        mkLine]
  · unfold doLinesIntersect
    rw [if_pos (by
      norm_num [lineDenominator, horizontalTen, horizontalAtFive, mkLine, abs_zero])]
    simp only [checkCoincidentOverlap, horizontalTen, horizontalAtFive, mkLine]
    rw [if_pos (Or.inl (by
      rw [show ((10 : ℝ) - 0) * (5 - 0) - (0 - 0) * (0 - 0) = 50 by norm_num]
      rw [abs_of_nonneg (by norm_num : (0 : ℝ) ≤ 50)]
      norm_num))]
    exact not_false
  · unfold doLinesIntersect
    rw [if_pos (by
      norm_num [lineDenominator, horizontalTen, collinearShifted, mkLine, abs_zero])]
    simp only [checkCoincidentOverlap, horizontalTen, collinearShifted, mkLine]
    rw [if_neg (by norm_num [abs_zero]), if_neg (by norm_num)]
    rw [show Real.sqrt (((10 : ℝ) - 0) * ((10 : ℝ) - 0) + ((0 : ℝ) - 0) * ((0 : ℝ) - 0)) = 10 from by
      rw [show (((10 : ℝ) - 0) * ((10 : ℝ) - 0) + ((0 : ℝ) - 0) * ((0 : ℝ) - 0)) = 100 by norm_num]
      exact sqrt_eval (by norm_num) (by norm_num)]
    constructor
    · exact le_trans (min_le_left _ _) (le_trans (by norm_num) (le_max_right _ _))
    · exact le_trans (min_le_left _ _) (le_trans (by norm_num) (le_max_left _ _))

/-- C5 witness: the general-position characterization applied to the
perpendicular Scenario C pair yields its in-range parameters. -/
theorem doLinesIntersect_spec_witness :
    0 ≤ paramT horizontalAtFive verticalAtFive ∧
      paramT horizontalAtFive verticalAtFive ≤ 1 ∧
      0 ≤ paramU horizontalAtFive verticalAtFive ∧
      paramU horizontalAtFive verticalAtFive ≤ 1 :=
  (doLinesIntersect_spec.1 horizontalAtFive verticalAtFive
    perp_denominator_large).mp doLinesIntersect_spec.2.2.1

theorem getProp_ne_null {data : JVal} (h : data ≠ JVal.jnull) (key : String) :
    getProp data key = .ok (jsMember data key) := by
  cases data <;> first | rfl | exact absurd rfl h

/-- C2 counterexample: the string `"null"` is parseable JSON, yet
`importLayout` returns failure — the property read `data.lines` on `null`
throws inside the `try` block and the catch returns `false` — where the
claim requires success on every parseable input. -/
theorem importLayout_null_counterexample :
    importLayout (some JVal.jnull) emptyStore = (false, emptyStore) ∧
      (some JVal.jnull).isSome = true :=
  ⟨rfl, rfl⟩

/-- C2 (amended): `importLayout` fails exactly when the string is not
parseable JSON or parses to JSON `null` (whose property reads throw); on
any other parse result it returns success, replacing each of `lines`,
`furniture`, `templates` exactly when the key is present with a truthy
value, replacing `gridScale` exactly when the key is present at all, and
leaving every other slot untouched. -/
theorem importLayout_spec :
    (∀ (data : JVal) (st : Store), data ≠ JVal.jnull →
      importLayout (some data) st =
        (true,
          { lines := if truthy (jsMember data "lines") then
                (jsMember data "lines").getD .jnull
              else st.lines
            furniture := if truthy (jsMember data "furniture") then
                (jsMember data "furniture").getD .jnull
              else st.furniture
            templates := if truthy (jsMember data "templates") then
                (jsMember data "templates").getD .jnull
              else st.templates
            gridScale := if (jsMember data "gridScale").isSome then
                (jsMember data "gridScale").getD .jnull
              else st.gridScale })) ∧
    (∀ (parsed : Option JVal) (st : Store),
      importLayout parsed st = (false, st) ↔
        parsed = none ∨ parsed = some JVal.jnull) := by
  have hmain : ∀ (data : JVal) (st : Store), data ≠ JVal.jnull →
      importLayout (some data) st =
        (true,
          { lines := if truthy (jsMember data "lines") then
                (jsMember data "lines").getD .jnull
              else st.lines
            furniture := if truthy (jsMember data "furniture") then
                (jsMember data "furniture").getD .jnull
              else st.furniture
            templates := if truthy (jsMember data "templates") then
                (jsMember data "templates").getD .jnull
              else st.templates
            gridScale := if (jsMember data "gridScale").isSome then
                (jsMember data "gridScale").getD .jnull
              else st.gridScale }) := by
    intro data st h
    simp only [importLayout, importLayoutData, getProp_ne_null h]
    split_ifs <;> rfl
  refine ⟨hmain, ?_⟩
  intro parsed st
  constructor
  · intro hres
    match parsed with
    | none => exact Or.inl rfl
    | some data =>
        by_cases hd : data = JVal.jnull
        · exact Or.inr (by rw [hd])
        · exfalso
          rw [hmain data st hd] at hres
          exact Bool.noConfusion (congrArg Prod.fst hres)
  · rintro (rfl | rfl) <;> rfl

/-- C2 witness: importing an object that carries only a `lines` array
replaces exactly the lines slot of the empty store and succeeds. -/
theorem importLayout_spec_witness :
    importLayout (some demoImport) emptyStore =
      (true, { emptyStore with lines := JVal.jarr [JVal.jnum 1] }) :=
  (importLayout_spec.1 demoImport emptyStore (fun h => JVal.noConfusion h)).trans
    rfl

end RoomPlanner
